import Mathlib

/-!
Shallow embedding of the MCP servers collection (HRM server `server.ts` and
the engineering server) for verification of the query/aggregation engine:
filter pipelines, join resolution and numeric aggregation.

Modelling conventions, used throughout:
* JavaScript strings are Lean `String`s; `toLowerCase` is mapped ASCII
  lowering (`jsToLower`), `includes` is `jsIncludes` — all data in the
  repository is ASCII, where the two agree with JavaScript.
* A JavaScript number that can be `NaN` (a division whose denominator can be
  zero) is an `Option`: `none` stands for `NaN`, `some v` for the finite
  value `v`. Fractional values are rationals.
* `Math.round(sum / count)` on naturals is `jsRoundDiv sum count`; the lemma
  `jsRoundDiv_eq_floor` proves it equal to `⌊sum / count + 1 / 2⌋`, the
  half-up rounding JavaScript performs on nonnegative arguments.
* An optional tool argument is `Option String`; the guard `if (args.x)` is
  `filterIfArg`, which skips the filter when the argument is absent or the
  empty string (both are falsy in JavaScript).
* Fields of a record that only ever feed the prose renderer (phone numbers,
  emergency contacts, free-text descriptions, …) are omitted: no filter,
  join or aggregate reads them.
-/

/-- JavaScript `String.prototype.toLowerCase` on the ASCII data of this
repository: character-wise lowering. -/
def jsToLower (s : String) : String :=
  String.mk (s.data.map Char.toLower)

/-- Substring search on character lists: does `needle` occur contiguously in
`hay`? (`[].includes` of the empty needle is `true`, as in JavaScript.) -/
def listContainsSub : List Char → List Char → Bool
  | [], needle => needle.isEmpty
  | hay@(_ :: rest), needle => needle.isPrefixOf hay || listContainsSub rest needle

/-- JavaScript `hay.includes(needle)`. -/
def jsIncludes (hay needle : String) : Bool :=
  listContainsSub hay.data needle.data

/-- JavaScript `Math.round(sum / count)` for natural `sum` and positive
natural `count`: round half up, `⌊sum / count + 1 / 2⌋`, computed with
natural-number arithmetic. -/
def jsRoundDiv (sum count : Nat) : Nat :=
  (2 * sum + count) / (2 * count)

theorem jsRoundDiv_eq_floor (sum count : Nat) (h : 0 < count) :
    (jsRoundDiv sum count : ℤ) = ⌊(sum : ℚ) / count + 1 / 2⌋ := by
  have hc : (count : ℚ) ≠ 0 := Nat.cast_ne_zero.mpr h.ne'
  have harg : (sum : ℚ) / count + 1 / 2 =
      ((2 * sum + count : ℕ) : ℤ) / ((2 * count : ℕ) : ℚ) := by
    push_cast
    field_simp
    ring
  rw [harg, Rat.floor_intCast_div_natCast, jsRoundDiv]
  push_cast [Int.ofNat_tdiv]
  norm_num

/-- The guard `if (args.x) { results = results.filter(...) }` of the tool
handlers: the filter runs only when the argument is present and truthy (a
nonempty string). -/
def filterIfArg (o : Option String) (p : String → α → Bool) (l : List α) : List α :=
  match o with
  | none => l
  | some s => if s = "" then l else l.filter (p s)

/-- "The record satisfies the criterion if one was supplied": for every
supplied, truthy value of the argument, the matcher accepts the record. -/
def suppliedSat (o : Option String) (p : String → α → Bool) (a : α) : Prop :=
  ∀ s, o = some s → s ≠ "" → p s a = true

theorem mem_filterIfArg {o : Option String} {p : String → α → Bool} {l : List α}
    {a : α} : a ∈ filterIfArg o p l ↔ a ∈ l ∧ suppliedSat o p a := by
  cases o with
  | none => simp [filterIfArg, suppliedSat]
  | some s =>
    by_cases hs : s = ""
    · subst hs
      simp [filterIfArg, suppliedSat]
    · simp [filterIfArg, hs, List.mem_filter, suppliedSat]

theorem filterIfArg_sublist (o : Option String) (p : String → α → Bool)
    (l : List α) : (filterIfArg o p l).Sublist l := by
  cases o with
  | none => exact List.Sublist.refl l
  | some s =>
    by_cases hs : s = ""
    · simp [filterIfArg, hs]
    · simp only [filterIfArg, if_neg hs]
      exact List.filter_sublist l

theorem filterIfArg_congr {s t : String} (p : String → α → Bool)
    (hst : s = "" ↔ t = "") (hp : ∀ a, p s a = p t a) (l : List α) :
    filterIfArg (some s) p l = filterIfArg (some t) p l := by
  by_cases hs : s = ""
  · simp [filterIfArg, hs, hst.mp hs]
  · have ht : ¬ t = "" := fun h => hs (hst.mpr h)
    simp only [filterIfArg, if_neg hs, if_neg ht]
    exact List.filter_congr fun a _ => hp a

theorem jsToLower_eq_empty_iff {s : String} : jsToLower s = "" ↔ s = "" := by
  constructor
  · intro h
    have hd : s.data.map Char.toLower = ([] : List Char) := congrArg String.data h
    exact String.ext (List.map_eq_nil_iff.mp hd)
  · intro h
    subst h
    rfl

/-- `acc[key] = (acc[key] || 0) + 1` folded over a list: the count-by-key
reducer used for status, severity and rating breakdowns. Keys appear in
first-seen order, as in a JavaScript object literal. -/
def bumpCount [DecidableEq κ] : List (κ × Nat) → κ → List (κ × Nat)
  | [], k => [(k, 1)]
  | (k', n) :: rest, k =>
    if k' = k then (k', n + 1) :: rest else (k', n) :: bumpCount rest k

def countBy [DecidableEq κ] (key : α → κ) (l : List α) : List (κ × Nat) :=
  l.foldl (fun acc a => bumpCount acc (key a)) []

theorem sum_bumpCount [DecidableEq κ] (acc : List (κ × Nat)) (k : κ) :
    ((bumpCount acc k).map Prod.snd).sum = (acc.map Prod.snd).sum + 1 := by
  induction acc with
  | nil => simp [bumpCount]
  | cons p rest ih =>
    obtain ⟨k', n⟩ := p
    by_cases hk : k' = k
    · simp [bumpCount, hk]
      omega
    · simp [bumpCount, hk, ih]
      omega

theorem sum_countBy [DecidableEq κ] (key : α → κ) (l : List α) :
    ((countBy key l).map Prod.snd).sum = l.length := by
  suffices h : ∀ acc : List (κ × Nat),
      ((l.foldl (fun acc a => bumpCount acc (key a)) acc).map Prod.snd).sum =
        (acc.map Prod.snd).sum + l.length by
    simpa using h []
  induction l with
  | nil => simp
  | cons a rest ih =>
    intro acc
    simp only [List.foldl_cons, ih, sum_bumpCount, List.length_cons]
    omega

/-- The dynamically-typed `args: any` object a tool handler receives: every
field of every tool's declared input schema, each optional. An absent field
is `none`. -/
structure Args where
  query : Option String
  department : Option String
  position : Option String
  status : Option String
  location : Option String
  employeeId : Option String
  departmentName : Option String
  groupBy : Option String
  type : Option String
  period : Option String
  repository : Option String
  environment : Option String
  severity : Option String
  service : Option String
  assignee : Option String
  author : Option String
  reviewer : Option String
  team : Option String
  owner : Option String
  priority : Option String
  sortBy : Option String
  timeframe : Option String
  level : Option String
  skill : Option String
  role : Option String
  language : Option String

/-- The empty argument object: no criterion supplied. -/
def noArgs : Args :=
  ⟨none, none, none, none, none, none, none, none, none, none, none, none, none,
   none, none, none, none, none, none, none, none, none, none, none, none, none⟩

/-- An employee record of the HRM server. Prose-only fields (phone,
emergency contact, hire date, the optional engineering extras) are omitted:
no filter, join or aggregate reads them. -/
structure Employee where
  id : String
  firstName : String
  lastName : String
  email : String
  department : String
  position : String
  manager : Option String
  salary : Nat
  status : String
  location : String
deriving DecidableEq

structure Department where
  id : String
  name : String
  manager : String
  budget : Nat
  headcount : Nat
  location : String
deriving DecidableEq

/-- Payroll record; only the foreign key is ever read by a filter. -/
structure PayrollRecord where
  id : String
  employeeId : String
deriving DecidableEq

structure TimeOffRequest where
  id : String
  employeeId : String
  type : String
  days : Nat
  status : String
deriving DecidableEq

structure PerformanceReview where
  id : String
  employeeId : String
  reviewerId : String
  period : String
  overallRating : ℚ
  status : String
deriving DecidableEq

/-- A project record; both servers declare the identical interface. -/
structure Project where
  id : String
  name : String
  status : String
  priority : String
  owner : String
  team : String
  progress : Nat
deriving DecidableEq

structure SecurityVulns where
  critical : Nat
  high : Nat
  medium : Nat
  low : Nat
deriving DecidableEq

/-- A repository record; both servers declare the identical interface. -/
structure Repository where
  id : String
  name : String
  type : String
  language : String
  team : String
  linesOfCode : Nat
  techDebtScore : Nat
  securityVulns : SecurityVulns
  testCoverage : Nat
  uptime : ℚ
deriving DecidableEq

/-- A deployment record; both servers declare the identical interface. -/
structure Deployment where
  id : String
  repository : String
  environment : String
  status : String
  duration : Nat
deriving DecidableEq

/-- An incident record; both servers declare the identical interface.
`resolvedAt = none` is an unresolved incident (no resolution timestamp);
`mttr` is minutes. -/
structure Incident where
  id : String
  severity : String
  status : String
  service : String
  assignee : String
  mttr : Nat
  resolvedAt : Option String
deriving DecidableEq

/-- A code-review record; both servers declare the identical interface.
`reviewTime` is hours. -/
structure CodeReview where
  id : String
  repository : String
  author : String
  reviewers : List String
  linesChanged : Nat
  status : String
  reviewTime : ℚ
deriving DecidableEq

/-- The `query` criterion of `search_employees`: the lower-cased query is a
substring of the first name, last name, email or id (the one internal OR). -/
def matchesEmpQuery (q : String) (emp : Employee) : Bool :=
  jsIncludes (jsToLower emp.firstName) (jsToLower q) ||
  jsIncludes (jsToLower emp.lastName) (jsToLower q) ||
  jsIncludes (jsToLower emp.email) (jsToLower q) ||
  jsIncludes (jsToLower emp.id) (jsToLower q)

def matchesDepartment (d : String) (emp : Employee) : Bool :=
  jsToLower emp.department == jsToLower d

def matchesPosition (p : String) (emp : Employee) : Bool :=
  jsIncludes (jsToLower emp.position) (jsToLower p)

def matchesStatus (s : String) (emp : Employee) : Bool :=
  emp.status == s

def matchesLocation (l : String) (emp : Employee) : Bool :=
  jsIncludes (jsToLower emp.location) (jsToLower l)

/-- `searchEmployees` of the HRM server: the five optional filters applied
in source order. -/
def searchEmployees (args : Args) (employees : List Employee) : List Employee :=
  let results := employees
  let results := filterIfArg args.query matchesEmpQuery results
  let results := filterIfArg args.department matchesDepartment results
  let results := filterIfArg args.position matchesPosition results
  let results := filterIfArg args.status matchesStatus results
  let results := filterIfArg args.location matchesLocation results
  results

/-- The Marketing department of the HRM database: its manager id `emp_011`
does not occur in the employee collection (a dangling foreign key). -/
def marketingDept : Department :=
  ⟨"dept_002", "Marketing", "emp_011", 800000, 8, "New York, NY"⟩

def hrmEmployees : List Employee :=
  [⟨"emp_001", "John", "Smith", "john.smith@company.com", "Engineering",
    "Senior Software Engineer", some "emp_010", 120000, "active", "San Francisco, CA"⟩,
   ⟨"emp_002", "Sarah", "Johnson", "sarah.johnson@company.com", "Marketing",
    "Marketing Manager", some "emp_011", 85000, "active", "New York, NY"⟩,
   ⟨"emp_003", "Michael", "Brown", "michael.brown@company.com", "Sales",
    "Account Executive", some "emp_012", 75000, "active", "Chicago, IL"⟩,
   ⟨"emp_004", "Emily", "Davis", "emily.davis@company.com", "HR",
    "HR Specialist", some "emp_013", 65000, "on_leave", "Austin, TX"⟩,
   ⟨"emp_005", "David", "Wilson", "david.wilson@company.com", "Finance",
    "Financial Analyst", some "emp_014", 70000, "active", "Seattle, WA"⟩,
   ⟨"emp_010", "Alice", "Chen", "alice.chen@company.com", "Engineering",
    "Engineering Manager", none, 150000, "active", "San Francisco, CA"⟩]

def hrmDepartments : List Department :=
  [⟨"dept_001", "Engineering", "emp_010", 2500000, 25, "San Francisco, CA"⟩,
   marketingDept,
   ⟨"dept_003", "Sales", "emp_012", 1200000, 15, "Chicago, IL"⟩,
   ⟨"dept_004", "HR", "emp_013", 400000, 5, "Austin, TX"⟩,
   ⟨"dept_005", "Finance", "emp_014", 600000, 7, "Seattle, WA"⟩]

def hrmPayrollRecords : List PayrollRecord :=
  [⟨"pay_001", "emp_001"⟩, ⟨"pay_002", "emp_002"⟩]

def hrmTimeOffRequests : List TimeOffRequest :=
  [⟨"to_001", "emp_001", "vacation", 5, "approved"⟩,
   ⟨"to_002", "emp_002", "sick", 2, "approved"⟩,
   ⟨"to_003", "emp_003", "personal", 1, "pending"⟩]

def hrmPerformanceReviews : List PerformanceReview :=
  [⟨"pr_001", "emp_001", "emp_010", "2024-Q2", 4.5, "completed"⟩,
   ⟨"pr_002", "emp_002", "emp_011", "2024-Q2", 4.0, "completed"⟩,
   ⟨"pr_003", "emp_003", "emp_012", "2024-Q2", 3.8, "scheduled"⟩]

def hrmProjects : List Project :=
  [⟨"proj_001", "Search Relevance V3", "Active", "P0", "emp_001", "Engineering", 65⟩,
   ⟨"proj_002", "Mobile App Redesign", "Planning", "P1", "emp_002", "Marketing", 10⟩,
   ⟨"proj_003", "Customer Analytics Platform", "Blocked", "P2", "emp_004", "HR", 35⟩]

def hrmRepositories : List Repository :=
  [⟨"repo_001", "search-service", "Service", "Python", "Engineering",
    125000, 6, ⟨0, 2, 8, 15⟩, 87, 99.95⟩,
   ⟨"repo_002", "mobile-app", "Mobile", "React Native", "Marketing",
    95000, 8, ⟨1, 3, 12, 20⟩, 76, 99.9⟩,
   ⟨"repo_003", "analytics-platform", "Data", "Python", "HR",
    85000, 5, ⟨0, 1, 6, 11⟩, 82, 99.8⟩]

def hrmDeployments : List Deployment :=
  [⟨"deploy_001", "search-service", "production", "success", 12⟩,
   ⟨"deploy_002", "mobile-app", "staging", "success", 18⟩,
   ⟨"deploy_003", "analytics-platform", "production", "failed", 25⟩]

def hrmIncidents : List Incident :=
  [⟨"inc_001", "SEV1", "Resolved", "search-service", "emp_001", 135,
    some "2024-06-20T16:45:00Z"⟩,
   ⟨"inc_002", "SEV2", "Investigating", "mobile-app", "emp_002", 0, none⟩]

def hrmCodeReviews : List CodeReview :=
  [⟨"cr_001", "search-service", "emp_001", ["emp_002"], 245, "Merged", 6.5⟩,
   ⟨"cr_002", "mobile-app", "emp_002", ["emp_001", "emp_004"], 312, "Open", 0⟩]

/-- The in-memory database of the HRM server (`hrmDatabase` in the source),
loaded once and never mutated. -/
structure HrmDb where
  employees : List Employee
  departments : List Department
  payrollRecords : List PayrollRecord
  timeOffRequests : List TimeOffRequest
  performanceReviews : List PerformanceReview
  projects : List Project
  repositories : List Repository
  deployments : List Deployment
  incidents : List Incident
  codeReviews : List CodeReview

def hrmDatabase : HrmDb :=
  ⟨hrmEmployees, hrmDepartments, hrmPayrollRecords, hrmTimeOffRequests,
   hrmPerformanceReviews, hrmProjects, hrmRepositories, hrmDeployments,
   hrmIncidents, hrmCodeReviews⟩

/-- `${args.employeeId}` inside a template literal: JavaScript prints the
word `undefined` for an absent argument. -/
def optArgString : Option String → String
  | some s => s
  | none => "undefined"

/-- Structured result of `get_employee_details` (the prose rendering of it
is outside the core). -/
structure EmployeeDetails where
  employee : Employee
  timeOffRequests : List TimeOffRequest
  performanceReviews : List PerformanceReview
  payrollRecords : List PayrollRecord
deriving DecidableEq

/-- `getEmployeeDetails`: a lookup by id that throws (models the `throw new
Error`) when no employee matches. -/
def getEmployeeDetails (args : Args) (db : HrmDb) : Except String EmployeeDetails :=
  match db.employees.find? (fun e => some e.id == args.employeeId) with
  | none => .error ("Employee not found: " ++ optArgString args.employeeId)
  | some employee =>
    .ok ⟨employee,
      db.timeOffRequests.filter (fun r => some r.employeeId == args.employeeId),
      db.performanceReviews.filter (fun r => some r.employeeId == args.employeeId),
      db.payrollRecords.filter (fun r => some r.employeeId == args.employeeId)⟩

/-- Structured result of `get_department_info`. `avgSalary` is
`reduce(...) / employees.length` then `Math.round`: `NaN` (here `none`) when
the department has no employees. -/
structure DeptInfo where
  department : Department
  managerDisplay : String
  employees : List Employee
  avgSalary : Option Nat
  totalPayroll : Nat
deriving DecidableEq

/-- The success branch of `getDepartmentInfo`: employees of the department,
the manager join (with its `'Not assigned'` fallback) and the salary
aggregates. -/
def mkDeptInfo (department : Department) (allEmployees : List Employee) : DeptInfo :=
  let employees := allEmployees.filter (fun e => e.department == department.name)
  let totalSalary := (employees.map Employee.salary).sum
  let manager := allEmployees.find? (fun e => e.id == department.manager)
  { department := department
    managerDisplay :=
      match manager with
      | some m => m.firstName ++ " " ++ m.lastName
      | none => "Not assigned"
    employees := employees
    avgSalary :=
      if employees.length = 0 then none
      else some (jsRoundDiv totalSalary employees.length)
    totalPayroll := totalSalary }

/-- `getDepartmentInfo`: find the department case-insensitively by name,
throw when it is missing; an absent `departmentName` argument makes
`args.departmentName.toLowerCase()` itself throw a `TypeError`, also caught
at the dispatcher. -/
def getDepartmentInfo (args : Args) (db : HrmDb) : Except String DeptInfo :=
  match args.departmentName with
  | none => .error "Cannot read properties of undefined (reading \x27toLowerCase\x27)"
  | some nm =>
    match db.departments.find? (fun d => jsToLower d.name == jsToLower nm) with
    | none => .error ("Department not found: " ++ nm)
    | some department => .ok (mkDeptInfo department db.employees)

/-- The switch on `groupBy` inside `getSalaryAnalysis`; the `default` arm
also groups by department. -/
def salaryKey (groupBy : String) (emp : Employee) : String :=
  match groupBy with
  | "department" => emp.department
  | "position" => emp.position
  | "location" => emp.location
  | _ => emp.department

/-- `if (!groupedData[key]) groupedData[key] = []; groupedData[key].push(emp)`:
append the employee to its key's group, creating the group at the end on
first sight (JavaScript object keys keep first-seen order). -/
def addToGroup : List (String × List Employee) → String → Employee →
    List (String × List Employee)
  | [], key, emp => [(key, [emp])]
  | (k, es) :: rest, key, emp =>
    if k = key then (k, es ++ [emp]) :: rest else (k, es) :: addToGroup rest key emp

def groupEmployees (groupBy : String) (employees : List Employee) :
    List (String × List Employee) :=
  employees.foldl (fun acc emp => addToGroup acc (salaryKey groupBy emp) emp) []

/-- One row of the salary analysis. A group is created with one member and
only ever grows, so its salary list is never empty and the average is a
finite number; `minSalary`/`maxSalary` are `Math.min`/`Math.max` over the
spread salary list (`none` only for the unreachable empty spread). -/
structure GroupStat where
  group : String
  count : Nat
  averageSalary : Nat
  minSalary : Option Nat
  maxSalary : Option Nat
  totalPayroll : Nat
deriving DecidableEq

def groupStat (g : String × List Employee) : GroupStat :=
  let salaries := g.2.map Employee.salary
  let total := salaries.sum
  ⟨g.1, g.2.length, jsRoundDiv total salaries.length, salaries.min?,
   salaries.max?, total⟩

/-- The comparator `(a, b) => b.averageSalary - a.averageSalary`: `a` may
come before `b` when `b.averageSalary ≤ a.averageSalary`. -/
def byAvgSalaryDesc (a b : GroupStat) : Prop :=
  b.averageSalary ≤ a.averageSalary

instance : DecidableRel byAvgSalaryDesc :=
  fun a b => Nat.decLe b.averageSalary a.averageSalary

instance : IsTotal GroupStat byAvgSalaryDesc :=
  ⟨fun a b => Nat.le_total b.averageSalary a.averageSalary⟩

instance : IsTrans GroupStat byAvgSalaryDesc :=
  ⟨fun _ _ _ hab hbc => le_trans hbc hab⟩

/-- `args.groupBy || 'department'`: the falsy default of `getSalaryAnalysis`. -/
def salaryGroupBy (args : Args) : String :=
  match args.groupBy with
  | some s => if s = "" then "department" else s
  | none => "department"

/-- `getSalaryAnalysis`: group by `args.groupBy || 'department'`, map each
group to its statistics and sort descending by average salary
(`Array.prototype.sort` is stable; insertion sort models it). -/
def getSalaryAnalysis (args : Args) (employees : List Employee) : List GroupStat :=
  List.insertionSort byAvgSalaryDesc
    ((groupEmployees (salaryGroupBy args) employees).map groupStat)

/-- `acc[req.type] = acc[req.type] || {count: 0, days: 0}` then `count++`,
`days += req.days`: the by-type reducer of `getTimeOffSummary`. -/
def bumpTypeSummary : List (String × Nat × Nat) → String → Nat →
    List (String × Nat × Nat)
  | [], t, d => [(t, 1, d)]
  | (t', c, ds) :: rest, t, d =>
    if t' = t then (t', c + 1, ds + d) :: rest
    else (t', c, ds) :: bumpTypeSummary rest t d

structure TimeOffSummary where
  requests : List TimeOffRequest
  byType : List (String × Nat × Nat)
  pending : Nat
  approved : Nat
  denied : Nat
deriving DecidableEq

def getTimeOffSummary (args : Args) (db : HrmDb) : TimeOffSummary :=
  let requests := db.timeOffRequests
  let requests := filterIfArg args.employeeId (fun v r => r.employeeId == v) requests
  let requests := filterIfArg args.status (fun v r => r.status == v) requests
  let requests := filterIfArg args.type (fun v r => r.type == v) requests
  { requests := requests
    byType := requests.foldl (fun acc r => bumpTypeSummary acc r.type r.days) []
    pending := (requests.filter (fun r => r.status == "pending")).length
    approved := (requests.filter (fun r => r.status == "approved")).length
    denied := (requests.filter (fun r => r.status == "denied")).length }

/-- Structured result of `performance_dashboard`. `avgRating` is
`reduce(...) / reviews.length` then `.toFixed(1)`: `NaN` (here `none`) when
the filtered review set is empty. `ratingDistribution` is keyed by
`Math.floor(overallRating)`. -/
structure PerformanceDashboard where
  reviews : List PerformanceReview
  avgRating : Option ℚ
  ratingDistribution : List (ℤ × Nat)
  completed : Nat
  scheduled : Nat
  inProgress : Nat
deriving DecidableEq

def getPerformanceDashboard (args : Args) (allReviews : List PerformanceReview) :
    PerformanceDashboard :=
  let reviews := allReviews
  let reviews := filterIfArg args.period (fun v r => r.period == v) reviews
  let reviews := filterIfArg args.status (fun v r => r.status == v) reviews
  { reviews := reviews
    avgRating :=
      if reviews.length = 0 then none
      else some ((reviews.map PerformanceReview.overallRating).sum / reviews.length)
    ratingDistribution := countBy (fun r => Rat.floor r.overallRating) reviews
    completed := (reviews.filter (fun r => r.status == "completed")).length
    scheduled := (reviews.filter (fun r => r.status == "scheduled")).length
    inProgress := (reviews.filter (fun r => r.status == "in_progress")).length }

/-- The filter pipeline of `getProjectStatus`; the function is identical in
both servers, differing only in the database it closes over. -/
def filterProjects (args : Args) (projects : List Project) : List Project :=
  let ps := projects
  let ps := filterIfArg args.status (fun v p => p.status == v) ps
  let ps := filterIfArg args.priority (fun v p => p.priority == v) ps
  let ps := filterIfArg args.team
    (fun v p => jsIncludes (jsToLower p.team) (jsToLower v)) ps
  let ps := filterIfArg args.owner (fun v p => p.owner == v) ps
  ps

structure ProjectStatusReport where
  projects : List Project
  count : Nat
  summary : List (String × Nat)
deriving DecidableEq

def getProjectStatus (args : Args) (projects : List Project) : ProjectStatusReport :=
  let ps := filterProjects args projects
  ⟨ps, ps.length, countBy Project.status ps⟩

/-- The `switch (args.sortBy)` of `getRepositoryMetrics`; `Array.sort` with
each comparator is modelled by a stable insertion sort, and an unknown
`sortBy` matches no case and leaves the order unchanged. -/
def sortRepos (sortBy : String) (repos : List Repository) : List Repository :=
  match sortBy with
  | "techDebt" =>
    List.insertionSort (fun a b => b.techDebtScore ≤ a.techDebtScore) repos
  | "security" =>
    List.insertionSort (fun a b =>
      b.securityVulns.critical + b.securityVulns.high ≤
        a.securityVulns.critical + a.securityVulns.high) repos
  | "coverage" => List.insertionSort (fun a b => a.testCoverage ≤ b.testCoverage) repos
  | "uptime" => List.insertionSort (fun a b => a.uptime ≤ b.uptime) repos
  | _ => repos

/-- Structured result of `repository_metrics`; every `Avg` field is a
`reduce(...) / repos.length`, `NaN` (here `none`) on an empty filtered set.
The function is identical in both servers. -/
structure RepoMetricsReport where
  repositories : List Repository
  totalLoc : Nat
  avgTestCoverage : Option Nat
  avgTechDebt : Option ℚ
  totalCriticalVulns : Nat
  avgUptime : Option ℚ
deriving DecidableEq

def getRepositoryMetrics (args : Args) (allRepos : List Repository) :
    RepoMetricsReport :=
  let repos := allRepos
  let repos := filterIfArg args.team
    (fun v r => jsIncludes (jsToLower r.team) (jsToLower v)) repos
  let repos := filterIfArg args.type (fun v r => jsToLower r.type == jsToLower v) repos
  let repos := filterIfArg args.language
    (fun v r => jsToLower r.language == jsToLower v) repos
  let repos :=
    match args.sortBy with
    | some s => if s = "" then repos else sortRepos s repos
    | none => repos
  { repositories := repos
    totalLoc := (repos.map Repository.linesOfCode).sum
    avgTestCoverage :=
      if repos.length = 0 then none
      else some (jsRoundDiv (repos.map Repository.testCoverage).sum repos.length)
    avgTechDebt :=
      if repos.length = 0 then none
      else some (((repos.map Repository.techDebtScore).sum : ℚ) / repos.length)
    totalCriticalVulns := (repos.map (fun r => r.securityVulns.critical)).sum
    avgUptime :=
      if repos.length = 0 then none
      else some ((repos.map Repository.uptime).sum / repos.length) }

/-- The filter pipeline of `getDeploymentDashboard`; identical in both
servers. The declared `timeframe` argument is never read by the
implementation. -/
def filterDeployments (args : Args) (deployments : List Deployment) :
    List Deployment :=
  let ds := deployments
  let ds := filterIfArg args.repository
    (fun v d => jsIncludes (jsToLower d.repository) (jsToLower v)) ds
  let ds := filterIfArg args.environment (fun v d => d.environment == v) ds
  let ds := filterIfArg args.status (fun v d => d.status == v) ds
  ds

/-- Structured result of `deployment_dashboard`. `successRate` is
`(successes / total * 100).toFixed(1)` and `avgDuration` is
`Math.round(sum / total)`: both `NaN` (here `none`) when the filtered set is
empty. `recent` is `deployments.slice(0, 10)`. -/
structure DeploymentDashboard where
  count : Nat
  successRate : Option ℚ
  avgDuration : Option Nat
  statusBreakdown : List (String × Nat)
  recent : List Deployment
deriving DecidableEq

def getDeploymentDashboard (args : Args) (allDeployments : List Deployment) :
    DeploymentDashboard :=
  let deployments := filterDeployments args allDeployments
  { count := deployments.length
    successRate :=
      if deployments.length = 0 then none
      else some
        (((deployments.filter (fun d => d.status == "success")).length : ℚ) /
          deployments.length * 100)
    avgDuration :=
      if deployments.length = 0 then none
      else some (jsRoundDiv (deployments.map Deployment.duration).sum
        deployments.length)
    statusBreakdown := countBy Deployment.status deployments
    recent := deployments.take 10 }

/-- The filter pipeline of `getIncidentAnalysis`; identical in both servers. -/
def filterIncidents (args : Args) (incidents : List Incident) : List Incident :=
  let incs := incidents
  let incs := filterIfArg args.severity (fun v i => i.severity == v) incs
  let incs := filterIfArg args.status (fun v i => i.status == v) incs
  let incs := filterIfArg args.service
    (fun v i => jsIncludes (jsToLower i.service) (jsToLower v)) incs
  let incs := filterIfArg args.assignee (fun v i => i.assignee == v) incs
  incs

/-- `i.mttr > 0`: the predicate the source uses to select the incidents that
enter the MTTR average. -/
def mttrEligible (i : Incident) : Bool :=
  decide (0 < i.mttr)

/-- Structured result of `incident_analysis`. `avgMttr` is
`Math.round(sum of eligible mttr / number of eligible)`: `NaN` (here
`none`) when no incident has positive `mttr`. -/
structure IncidentAnalysis where
  count : Nat
  avgMttr : Option Nat
  severityBreakdown : List (String × Nat)
  incidents : List Incident
deriving DecidableEq

def getIncidentAnalysis (args : Args) (allIncidents : List Incident) :
    IncidentAnalysis :=
  let incidents := filterIncidents args allIncidents
  let eligible := incidents.filter mttrEligible
  { count := incidents.length
    avgMttr :=
      if eligible.length = 0 then none
      else some (jsRoundDiv (eligible.map Incident.mttr).sum eligible.length)
    severityBreakdown := countBy Incident.severity incidents
    incidents := incidents }

/-- The filter pipeline of `getCodeReviewMetrics`; identical in both servers. -/
def filterCodeReviews (args : Args) (reviews : List CodeReview) : List CodeReview :=
  let rs := reviews
  let rs := filterIfArg args.repository
    (fun v r => jsIncludes (jsToLower r.repository) (jsToLower v)) rs
  let rs := filterIfArg args.author (fun v r => r.author == v) rs
  let rs := filterIfArg args.reviewer (fun v r => r.reviewers.contains v) rs
  let rs := filterIfArg args.status (fun v r => r.status == v) rs
  rs

/-- Structured result of `code_review_metrics`. `avgReviewTime` averages
only the reviews with `reviewTime > 0` and is `NaN` (here `none`) when
there is none; `avgLinesChanged` is `NaN` when the filtered set is empty. -/
structure CodeReviewMetrics where
  count : Nat
  avgReviewTime : Option ℚ
  avgLinesChanged : Option Nat
  statusBreakdown : List (String × Nat)
  reviews : List CodeReview
deriving DecidableEq

def getCodeReviewMetrics (args : Args) (allReviews : List CodeReview) :
    CodeReviewMetrics :=
  let reviews := filterCodeReviews args allReviews
  let timed := reviews.filter (fun r => decide (0 < r.reviewTime))
  { count := reviews.length
    avgReviewTime :=
      if timed.length = 0 then none
      else some ((timed.map CodeReview.reviewTime).sum / timed.length)
    avgLinesChanged :=
      if reviews.length = 0 then none
      else some (jsRoundDiv (reviews.map CodeReview.linesChanged).sum reviews.length)
    statusBreakdown := countBy CodeReview.status reviews
    reviews := reviews }

/-- The structured payload of one successful tool call of the HRM server
(the dispatcher renders it to prose; rendering is outside the core). -/
inductive ToolOutput where
  | searchEmployeesOut (results : List Employee)
  | employeeDetailsOut (d : EmployeeDetails)
  | departmentInfoOut (d : DeptInfo)
  | salaryAnalysisOut (a : List GroupStat)
  | timeOffSummaryOut (t : TimeOffSummary)
  | performanceDashboardOut (p : PerformanceDashboard)
  | projectStatusOut (p : ProjectStatusReport)
  | repositoryMetricsOut (r : RepoMetricsReport)
  | deploymentDashboardOut (d : DeploymentDashboard)
  | incidentAnalysisOut (i : IncidentAnalysis)
  | codeReviewMetricsOut (c : CodeReviewMetrics)
deriving DecidableEq

/-- What the dispatcher returns to the transport: a successful result, or
the structured failed result (`content` with the error text and
`isError: true`) built in the `catch` block. -/
inductive CallToolResult where
  | success (out : ToolOutput)
  | failure (text : String)
deriving DecidableEq

/-- The `switch (name)` of the `CallToolRequestSchema` handler, before the
`catch`: each arm calls its tool implementation, the `default` arm throws
`Unknown tool`. A handler's own `throw` is the `Except.error` case. -/
def dispatchTool (db : HrmDb) (name : String) (args : Args) :
    Except String ToolOutput :=
  if name = "search_employees" then
    .ok (.searchEmployeesOut (searchEmployees args db.employees))
  else if name = "get_employee_details" then
    (getEmployeeDetails args db).map ToolOutput.employeeDetailsOut
  else if name = "get_department_info" then
    (getDepartmentInfo args db).map ToolOutput.departmentInfoOut
  else if name = "salary_analysis" then
    .ok (.salaryAnalysisOut (getSalaryAnalysis args db.employees))
  else if name = "time_off_summary" then
    .ok (.timeOffSummaryOut (getTimeOffSummary args db))
  else if name = "performance_dashboard" then
    .ok (.performanceDashboardOut (getPerformanceDashboard args db.performanceReviews))
  else if name = "get_project_status" then
    .ok (.projectStatusOut (getProjectStatus args db.projects))
  else if name = "repository_metrics" then
    .ok (.repositoryMetricsOut (getRepositoryMetrics args db.repositories))
  else if name = "deployment_dashboard" then
    .ok (.deploymentDashboardOut (getDeploymentDashboard args db.deployments))
  else if name = "incident_analysis" then
    .ok (.incidentAnalysisOut (getIncidentAnalysis args db.incidents))
  else if name = "code_review_metrics" then
    .ok (.codeReviewMetricsOut (getCodeReviewMetrics args db.codeReviews))
  else
    .error ("Unknown tool: " ++ name)

/-- The dispatcher boundary: `try { switch ... } catch (error) { return
{content: Error: ..., isError: true} }`. Every raised error becomes a
`failure`; the process never terminates on a bad request. -/
def callTool (db : HrmDb) (name : String) (args : Args) : CallToolResult :=
  match dispatchTool db name args with
  | .ok out => .success out
  | .error msg => .failure ("Error: " ++ msg)

/-- The tool names the HRM dispatcher recognizes. -/
def hrmToolNames : List String :=
  ["search_employees", "get_employee_details", "get_department_info",
   "salary_analysis", "time_off_summary", "performance_dashboard",
   "get_project_status", "repository_metrics", "deployment_dashboard",
   "incident_analysis", "code_review_metrics"]

/-- An engineer record of the engineering server. `hireDate` only feeds the
renderer and is omitted. -/
structure Engineer where
  id : String
  name : String
  email : String
  level : String
  role : String
  team : String
  location : String
  skills : List String
  manager : Option String
deriving DecidableEq

structure Team where
  id : String
  name : String
  type : String
  manager : String
  engineers : List String
  budget : Nat
deriving DecidableEq

/-- The `query` criterion of `search_engineers`: the lower-cased query is a
substring of the name, email or id (the one internal OR). -/
def matchesEngQuery (q : String) (eng : Engineer) : Bool :=
  jsIncludes (jsToLower eng.name) (jsToLower q) ||
  jsIncludes (jsToLower eng.email) (jsToLower q) ||
  jsIncludes (jsToLower eng.id) (jsToLower q)

def matchesEngTeam (v : String) (eng : Engineer) : Bool :=
  jsIncludes (jsToLower eng.team) (jsToLower v)

def matchesEngRole (v : String) (eng : Engineer) : Bool :=
  jsToLower eng.role == jsToLower v

def matchesEngLevel (v : String) (eng : Engineer) : Bool :=
  eng.level == v

def matchesEngLocation (v : String) (eng : Engineer) : Bool :=
  jsIncludes (jsToLower eng.location) (jsToLower v)

def matchesEngSkill (v : String) (eng : Engineer) : Bool :=
  eng.skills.any (fun sk => jsIncludes (jsToLower sk) (jsToLower v))

/-- `searchEngineers` of the engineering server: the six optional filters
applied in source order. -/
def searchEngineers (args : Args) (engineers : List Engineer) : List Engineer :=
  let results := engineers
  let results := filterIfArg args.query matchesEngQuery results
  let results := filterIfArg args.team matchesEngTeam results
  let results := filterIfArg args.role matchesEngRole results
  let results := filterIfArg args.level matchesEngLevel results
  let results := filterIfArg args.location matchesEngLocation results
  let results := filterIfArg args.skill matchesEngSkill results
  results

/-- The projected member record of the `engineering://team-structure` view. -/
structure EngDetail where
  id : String
  name : String
  role : String
  level : String
deriving DecidableEq

def mkEngDetail (e : Engineer) : EngDetail :=
  ⟨e.id, e.name, e.role, e.level⟩

/-- One team of the team-structure view: the spread `...team` (so the
declared member-id list survives untouched), the `engineerDetails` list
built by resolving each member id and dropping the `null`s
(`.filter(Boolean)`), and the manager join with its `'Unknown'` fallback. -/
structure TeamStructureEntry where
  team : Team
  engineerDetails : List EngDetail
  managerName : String
deriving DecidableEq

def teamStructureEntry (engineers : List Engineer) (team : Team) :
    TeamStructureEntry :=
  { team := team
    engineerDetails :=
      (team.engineers.map (fun engId =>
        (engineers.find? (fun e => e.id == engId)).map mkEngDetail)).reduceOption
    managerName :=
      match engineers.find? (fun e => e.id == team.manager) with
      | some e => e.name
      | none => "Unknown" }

/-- The `engineering://team-structure` resource body (with the total budget
alongside, computed over all teams). -/
def teamStructure (engineers : List Engineer) (teams : List Team) :
    List TeamStructureEntry :=
  teams.map (teamStructureEntry engineers)

/-- The sample engineers `generateEngineers()` returns. -/
def engEngineers : List Engineer :=
  [⟨"eng_001", "Alex Chen", "alex.chen@company.com", "L6", "SWE",
    "Search Platform", "San Francisco",
    ["Python", "Java", "Elasticsearch", "Kafka", "AWS"], some "eng_100"⟩,
   ⟨"eng_002", "Sarah Johnson", "sarah.johnson@company.com", "L7", "SRE",
    "Platform SRE", "Seattle",
    ["Go", "Kubernetes", "Prometheus", "Terraform", "GCP"], some "eng_101"⟩,
   ⟨"eng_003", "Marcus Rodriguez", "marcus.rodriguez@company.com", "L5", "SWE",
    "Mobile Platform", "Austin",
    ["Swift", "Kotlin", "React Native", "GraphQL", "Apollo"], some "eng_102"⟩,
   ⟨"eng_004", "Priya Patel", "priya.patel@company.com", "L6", "Data",
    "Data Platform", "New York",
    ["Python", "Spark", "Airflow", "BigQuery", "dbt"], some "eng_103"⟩,
   ⟨"eng_005", "David Kim", "david.kim@company.com", "L8", "Architect",
    "Core Platform", "San Francisco",
    ["Java", "Spring", "Microservices", "PostgreSQL", "Redis"], none⟩,
   ⟨"eng_100", "Jennifer Wu", "jennifer.wu@company.com", "L7", "Manager",
    "Search Platform", "San Francisco",
    ["Python", "Leadership", "System Design", "Elasticsearch"], some "eng_200"⟩,
   ⟨"eng_101", "Michael O\x27Brien", "michael.obrien@company.com", "L8", "Manager",
    "Platform SRE", "Seattle",
    ["Go", "Kubernetes", "Leadership", "Incident Management"], some "eng_200"⟩,
   ⟨"eng_200", "Lisa Anderson", "lisa.anderson@company.com", "L9", "Director",
    "Platform Engineering", "San Francisco",
    ["Leadership", "Strategy", "System Architecture", "Team Building"],
    some "eng_300"⟩,
   ⟨"eng_300", "Robert Chang", "robert.chang@company.com", "L10", "VP",
    "Engineering", "San Francisco",
    ["Leadership", "Strategy", "Product", "Scaling"], none⟩]

/-- The teams `generateTeams()` returns. The managers of `team_003` and
`team_004` (`eng_102`, `eng_103`) do not occur in the engineer collection. -/
def engTeams : List Team :=
  [⟨"team_001", "Search Platform", "Platform", "eng_100", ["eng_001"], 2500000⟩,
   ⟨"team_002", "Platform SRE", "Infrastructure", "eng_101", ["eng_002"], 3000000⟩,
   ⟨"team_003", "Mobile Platform", "Platform", "eng_102", ["eng_003"], 2000000⟩,
   ⟨"team_004", "Data Platform", "Data", "eng_103", ["eng_004"], 2800000⟩,
   ⟨"team_005", "Core Platform", "Platform", "eng_005", ["eng_005"], 4000000⟩]

/-- The incidents `generateIncidents()` returns: two resolved with positive
`mttr`, two unresolved with `mttr = 0`. -/
def engIncidents : List Incident :=
  [⟨"inc_001", "SEV1", "Resolved", "search-service", "eng_001", 135,
    some "2024-06-20T16:45:00Z"⟩,
   ⟨"inc_002", "SEV0", "Post-mortem", "mobile-sdk", "eng_003", 195,
    some "2024-06-19T12:30:00Z"⟩,
   ⟨"inc_003", "SEV2", "Investigating", "data-pipeline", "eng_004", 0, none⟩,
   ⟨"inc_004", "SEV2", "Mitigating", "api-gateway", "eng_005", 0, none⟩]

/-- The MTTR average as the source computes it, as a function of the list of
incidents it is taken over: `Math.round(sum / length)`, `NaN` (`none`) over
zero incidents. -/
def mttrAverageOf (incs : List Incident) : Option Nat :=
  if incs.length = 0 then none
  else some (jsRoundDiv (incs.map Incident.mttr).sum incs.length)

/-- The three employees of the spec's salary-analysis scenario:
departments `A: 100k`, `A: 120k`, `B: 80k`. -/
def specScenarioEmployees : List Employee :=
  [⟨"e1", "Ann", "One", "a1@x.com", "A", "Engineer", none, 100000, "active", "X"⟩,
   ⟨"e2", "Amy", "Two", "a2@x.com", "A", "Engineer", none, 120000, "active", "X"⟩,
   ⟨"e3", "Bob", "Three", "b1@x.com", "B", "Engineer", none, 80000, "active", "X"⟩]

/-- Eleven deployments of one repository: more matches than the ten-entry
`slice(0, 10)` detail list can show. -/
def elevenDeployments : List Deployment :=
  (List.range 11).map
    (fun n => ⟨"d" ++ toString n, "search-service", "production", "success", n⟩)

/-- An incident with a resolution timestamp recorded but `mttr = 0`: resolved
instantly. Exercises the gap between "has a resolution timestamp" and the
`mttr > 0` test the source uses. -/
def instantIncident : Incident :=
  ⟨"inc_900", "SEV3", "Resolved", "search-service", "emp_001", 0,
   some "2024-06-21T10:00:00Z"⟩

theorem sum_addToGroup (acc : List (String × List Employee)) (key : String)
    (emp : Employee) :
    ((addToGroup acc key emp).map (fun p => p.2.length)).sum =
      (acc.map (fun p => p.2.length)).sum + 1 := by
  induction acc with
  | nil => simp [addToGroup]
  | cons p rest ih =>
    obtain ⟨k, es⟩ := p
    by_cases hk : k = key
    · simp [addToGroup, hk]
      omega
    · simp [addToGroup, hk, ih]
      omega

theorem sum_groupEmployees (gb : String) (emps : List Employee) :
    ((groupEmployees gb emps).map (fun p => p.2.length)).sum = emps.length := by
  suffices h : ∀ acc : List (String × List Employee),
      ((emps.foldl (fun acc e => addToGroup acc (salaryKey gb e) e) acc).map
        (fun p => p.2.length)).sum =
        (acc.map (fun p => p.2.length)).sum + emps.length by
    simpa [groupEmployees] using h []
  induction emps with
  | nil => simp
  | cons e rest ih =>
    intro acc
    simp only [List.foldl_cons, ih, sum_addToGroup, List.length_cons]
    omega

/-- The filtered incident sets of both servers' databases: an incident has
positive `mttr` exactly when it carries a resolution timestamp, so the
`mttr > 0` test of the source selects exactly the resolved incidents. Shared
backbone of the claim about MTTR averaging. -/
theorem incidentAnalysis_resolved (args : Args) (incs : List Incident)
    (hdb : ∀ i ∈ incs, mttrEligible i = i.resolvedAt.isSome) :
    (filterIncidents args incs).filter mttrEligible =
      (filterIncidents args incs).filter (fun i => i.resolvedAt.isSome) ∧
    (getIncidentAnalysis args incs).avgMttr =
      mttrAverageOf
        ((filterIncidents args incs).filter (fun i => i.resolvedAt.isSome)) ∧
    (getIncidentAnalysis args incs).count = (filterIncidents args incs).length ∧
    (((getIncidentAnalysis args incs).severityBreakdown).map Prod.snd).sum =
      (filterIncidents args incs).length := by
  have hsub : (filterIncidents args incs).Sublist incs :=
    (filterIfArg_sublist _ _ _).trans ((filterIfArg_sublist _ _ _).trans
      ((filterIfArg_sublist _ _ _).trans (filterIfArg_sublist _ _ _)))
  have hfilt : (filterIncidents args incs).filter mttrEligible =
      (filterIncidents args incs).filter (fun i => i.resolvedAt.isSome) :=
    List.filter_congr fun i hi => hdb i (hsub.subset hi)
  refine ⟨hfilt, ?_, rfl, sum_countBy _ _⟩
  show mttrAverageOf ((filterIncidents args incs).filter mttrEligible) = _
  rw [hfilt]

/-- Claim C2: a record appears in a search result exactly when it lies in the
collection and satisfies every supplied criterion (logical AND across
supplied criteria; an absent — or, equivalently under JavaScript truthiness,
empty-string — criterion imposes no constraint). The `query` criterion is
the one internal OR: the lower-cased query need only be a substring of one
of the record's name field(s), email or id (`matchesEmpQuery`,
`matchesEngQuery`). Stated for `search_employees` and `search_engineers`. -/
theorem searchResults_iff_satisfy_all_criteria :
    (∀ (args : Args) (employees : List Employee) (emp : Employee),
      emp ∈ searchEmployees args employees ↔
        emp ∈ employees ∧
        suppliedSat args.query matchesEmpQuery emp ∧
        suppliedSat args.department matchesDepartment emp ∧
        suppliedSat args.position matchesPosition emp ∧
        suppliedSat args.status matchesStatus emp ∧
        suppliedSat args.location matchesLocation emp) ∧
    (∀ (args : Args) (engineers : List Engineer) (eng : Engineer),
      eng ∈ searchEngineers args engineers ↔
        eng ∈ engineers ∧
        suppliedSat args.query matchesEngQuery eng ∧
        suppliedSat args.team matchesEngTeam eng ∧
        suppliedSat args.role matchesEngRole eng ∧
        suppliedSat args.level matchesEngLevel eng ∧
        suppliedSat args.location matchesEngLocation eng ∧
        suppliedSat args.skill matchesEngSkill eng) := by
  constructor
  · intro args employees emp
    simp only [searchEmployees, mem_filterIfArg, and_assoc]
  · intro args engineers eng
    simp only [searchEngineers, mem_filterIfArg, and_assoc]

/-- Claim C3: every filter pipeline returns a sublist of the collection it
scans — every returned record is an element of the source collection and the
original relative order is preserved (neither `search_employees` nor
`get_project_status` sorts). -/
theorem filterResults_sublist :
    ∀ (args : Args) (employees : List Employee) (projects : List Project),
      (searchEmployees args employees).Sublist employees ∧
      ((getProjectStatus args projects).projects).Sublist projects := by
  intro args employees projects
  constructor
  · exact (filterIfArg_sublist _ _ _).trans ((filterIfArg_sublist _ _ _).trans
      ((filterIfArg_sublist _ _ _).trans ((filterIfArg_sublist _ _ _).trans
        (filterIfArg_sublist _ _ _))))
  · exact (filterIfArg_sublist _ _ _).trans ((filterIfArg_sublist _ _ _).trans
      ((filterIfArg_sublist _ _ _).trans (filterIfArg_sublist _ _ _)))

/-- Claim C4: the empty argument object applies no filter: both search tools
return the whole collection unchanged, in its original order. -/
theorem emptyArgs_returns_whole_collection :
    ∀ (employees : List Employee) (engineers : List Engineer),
      searchEmployees noArgs employees = employees ∧
      searchEngineers noArgs engineers = engineers :=
  fun _ _ => ⟨rfl, rfl⟩

/-- Claim C9: substring-style filtering is case-insensitive. Criterion
strings with the same lower-casing (in particular, strings differing only in
letter case) give identical result sets for the substring filters: `query`,
`position` and `location` of `search_employees`, `team` and `skill` of
`search_engineers`, whatever the other arguments. -/
theorem substringFilters_case_insensitive (s t : String)
    (h : jsToLower s = jsToLower t) :
    ∀ (args : Args) (employees : List Employee) (engineers : List Engineer),
      searchEmployees { args with query := some s } employees =
        searchEmployees { args with query := some t } employees ∧
      searchEmployees { args with position := some s } employees =
        searchEmployees { args with position := some t } employees ∧
      searchEmployees { args with location := some s } employees =
        searchEmployees { args with location := some t } employees ∧
      searchEngineers { args with team := some s } engineers =
        searchEngineers { args with team := some t } engineers ∧
      searchEngineers { args with skill := some s } engineers =
        searchEngineers { args with skill := some t } engineers := by
  intro args employees engineers
  have hempty : (s = "") ↔ (t = "") := by
    rw [← @jsToLower_eq_empty_iff s, ← @jsToLower_eq_empty_iff t, h]
  refine ⟨?_, ?_, ?_, ?_, ?_⟩
  · have hp : ∀ e, matchesEmpQuery s e = matchesEmpQuery t e := by
      intro e
      simp only [matchesEmpQuery, h]
    simp only [searchEmployees]
    rw [filterIfArg_congr matchesEmpQuery hempty hp]
  · have hp : ∀ e, matchesPosition s e = matchesPosition t e := by
      intro e
      simp only [matchesPosition, h]
    simp only [searchEmployees]
    rw [filterIfArg_congr matchesPosition hempty hp]
  · have hp : ∀ e, matchesLocation s e = matchesLocation t e := by
      intro e
      simp only [matchesLocation, h]
    simp only [searchEmployees]
    rw [filterIfArg_congr matchesLocation hempty hp]
  · have hp : ∀ e, matchesEngTeam s e = matchesEngTeam t e := by
      intro e
      simp only [matchesEngTeam, h]
    simp only [searchEngineers]
    rw [filterIfArg_congr matchesEngTeam hempty hp]
  · have hp : ∀ e, matchesEngSkill s e = matchesEngSkill t e := by
      intro e
      simp only [matchesEngSkill, h]
    simp only [searchEngineers]
    rw [filterIfArg_congr matchesEngSkill hempty hp]

/-- Claim C9, at `"ACME"` versus `"acme"` on both servers' databases. -/
theorem substringFilters_case_insensitive_witness :
    jsToLower "ACME" = jsToLower "acme" ∧
    searchEmployees { noArgs with position := some "ACME" } hrmEmployees =
      searchEmployees { noArgs with position := some "acme" } hrmEmployees :=
  ⟨by decide,
   (substringFilters_case_insensitive "ACME" "acme" (by decide) noArgs
      hrmEmployees engEngineers).2.1⟩

/-- A team whose member list holds one resolvable id (`eng_003`) and one id
absent from the engineer collection (`eng_999`), and whose manager id
(`eng_102`) is also dangling. -/
def ghostTeam : Team :=
  ⟨"team_900", "Ghost", "Platform", "eng_102", ["eng_003", "eng_999"], 0⟩

/-- Claim C5: dangling foreign keys never raise. `get_department_info` on a
department whose manager id resolves to no employee returns the department
normally — employee list exactly the department's employees, manager
reported `'Not assigned'`. The team-structure view keeps the declared
member-id list (and hence the declared cardinality) intact while the detail
list drops exactly the unresolvable ids: a resolvable member id contributes
its projected record, an unresolvable one contributes nothing. -/
theorem danglingForeignKeys_degrade_gracefully :
    (∀ (args : Args) (db : HrmDb) (nm : String) (dept : Department),
      args.departmentName = some nm →
      db.departments.find? (fun d => jsToLower d.name == jsToLower nm) =
        some dept →
      (∀ e ∈ db.employees, e.id ≠ dept.manager) →
      getDepartmentInfo args db = .ok (mkDeptInfo dept db.employees) ∧
      (mkDeptInfo dept db.employees).managerDisplay = "Not assigned" ∧
      (mkDeptInfo dept db.employees).employees =
        db.employees.filter (fun e => e.department == dept.name)) ∧
    (∀ (engineers : List Engineer) (team : Team),
      (teamStructureEntry engineers team).team = team ∧
      (teamStructureEntry engineers team).engineerDetails.length ≤
        team.engineers.length ∧
      (∀ engId, engineers.find? (fun e => e.id == engId) = none →
        ∀ d ∈ (teamStructureEntry engineers team).engineerDetails, d.id ≠ engId) ∧
      (∀ engId e, engId ∈ team.engineers →
        engineers.find? (fun e2 => e2.id == engId) = some e →
        mkEngDetail e ∈ (teamStructureEntry engineers team).engineerDetails)) := by
  constructor
  · intro args db nm dept h1 h2 h3
    have hmanager : db.employees.find? (fun e => e.id == dept.manager) = none := by
      rw [List.find?_eq_none]
      intro e he
      simp only [beq_iff_eq]
      exact fun hc => h3 e he hc
    refine ⟨?_, ?_, rfl⟩
    · simp only [getDepartmentInfo, h1, h2]
    · simp only [mkDeptInfo, hmanager]
  · intro engineers team
    refine ⟨rfl, ?_, ?_, ?_⟩
    · show ((team.engineers.map _).reduceOption).length ≤ team.engineers.length
      exact (List.reduceOption_length_le _).trans (by rw [List.length_map])
    · intro engId hnone d hd hid
      have hsome : some d ∈ team.engineers.map (fun engId2 =>
          (engineers.find? (fun e => e.id == engId2)).map mkEngDetail) :=
        List.reduceOption_mem_iff.mp hd
      obtain ⟨engId2, _, heq⟩ := List.mem_map.mp hsome
      obtain ⟨e, hfind, hmk⟩ := Option.map_eq_some'.mp heq
      have hee : e ∈ engineers := List.mem_of_find?_eq_some hfind
      have hne := List.find?_eq_none.mp hnone e hee
      apply hne
      have hdid : d.id = e.id := by rw [← hmk]; rfl
      simp [← hid, hdid]
    · intro engId e hmem hfind
      apply List.reduceOption_mem_iff.mpr
      exact List.mem_map.mpr ⟨engId, hmem, by rw [hfind]; rfl⟩

/-- Claim C5 at the repository's data: the Marketing department's manager
`emp_011` is dangling, yet the lookup succeeds with `'Not assigned'`; the
team-structure entry of `ghostTeam` keeps both declared member ids while its
detail list drops `eng_999` and keeps `eng_003`. -/
theorem danglingForeignKeys_witness :
    hrmDatabase.departments.find?
        (fun d => jsToLower d.name == jsToLower "Marketing") = some marketingDept ∧
    (∀ e ∈ hrmDatabase.employees, e.id ≠ marketingDept.manager) ∧
    getDepartmentInfo { noArgs with departmentName := some "Marketing" }
        hrmDatabase = .ok (mkDeptInfo marketingDept hrmDatabase.employees) ∧
    (mkDeptInfo marketingDept hrmDatabase.employees).managerDisplay =
      "Not assigned" ∧
    (teamStructureEntry engEngineers ghostTeam).team = ghostTeam ∧
    (∀ d ∈ (teamStructureEntry engEngineers ghostTeam).engineerDetails,
      d.id ≠ "eng_999") :=
  ⟨by decide, by decide,
   (danglingForeignKeys_degrade_gracefully.1
      { noArgs with departmentName := some "Marketing" } hrmDatabase "Marketing"
      marketingDept rfl (by decide) (by decide)).1,
   (danglingForeignKeys_degrade_gracefully.1
      { noArgs with departmentName := some "Marketing" } hrmDatabase "Marketing"
      marketingDept rfl (by decide) (by decide)).2.1,
   (danglingForeignKeys_degrade_gracefully.2 engEngineers ghostTeam).1,
   (danglingForeignKeys_degrade_gracefully.2 engEngineers ghostTeam).2.2.1
     "eng_999" (by decide)⟩

/-- Claim C6: failing lookups and unknown tool names surface as structured
failures, never as a crash. A `get_employee_details` call whose id matches
no employee yields the failed result whose text names the missing id; a name
outside the tool list yields the failed `Unknown tool` result; every error a
handler raises is caught at the dispatcher boundary and becomes a
`failure`, a constructor distinct from every successful result. -/
theorem dispatcher_catches_all_errors :
    (∀ (db : HrmDb) (args : Args) (id : String),
      args.employeeId = some id →
      db.employees.find? (fun e => some e.id == args.employeeId) = none →
      callTool db "get_employee_details" args =
        .failure ("Error: " ++ ("Employee not found: " ++ id))) ∧
    (∀ (db : HrmDb) (name : String) (args : Args),
      name ∉ hrmToolNames →
      callTool db name args =
        .failure ("Error: " ++ ("Unknown tool: " ++ name))) ∧
    (∀ (db : HrmDb) (name : String) (args : Args) (msg : String),
      dispatchTool db name args = .error msg →
      callTool db name args = .failure ("Error: " ++ msg)) ∧
    (∀ (text : String) (out : ToolOutput),
      CallToolResult.failure text ≠ .success out) := by
  refine ⟨?_, ?_, ?_, ?_⟩
  · intro db args id h1 h2
    have h2a : db.employees.find? (fun e => e.id == id) = none := by
      simpa [h1] using h2
    simp [callTool, dispatchTool, getEmployeeDetails, h2a, h1, optArgString,
      Except.map]
  · intro db name args hname
    simp only [hrmToolNames, List.mem_cons, List.not_mem_nil, or_false] at hname
    push_neg at hname
    obtain ⟨n1, n2, n3, n4, n5, n6, n7, n8, n9, n10, n11⟩ := hname
    simp [callTool, dispatchTool, n1, n2, n3, n4, n5, n6, n7, n8, n9, n10, n11]
  · intro db name args msg h
    simp only [callTool, h]
  · intro text out h
    cases h

/-- Claim C6 at concrete bad requests against the HRM database: an unknown
employee id and an unknown tool name both come back as structured failures
naming the offender. -/
theorem dispatcher_catches_all_errors_witness :
    callTool hrmDatabase "get_employee_details"
        { noArgs with employeeId := some "emp_999" } =
      .failure "Error: Employee not found: emp_999" ∧
    callTool hrmDatabase "bogus_tool" noArgs =
      .failure "Error: Unknown tool: bogus_tool" :=
  ⟨dispatcher_catches_all_errors.1 hrmDatabase
     { noArgs with employeeId := some "emp_999" } "emp_999" rfl (by decide),
   dispatcher_catches_all_errors.2.1 hrmDatabase "bogus_tool" noArgs (by decide)⟩

/-- Claim C7: `salary_analysis` partitions the input — the per-group counts
sum to the input size — each row's average salary is the half-up-rounded
mean of that row's total payroll over its count, and the rows come out
sorted descending by average salary. On the spec's three-employee scenario
the result is group `A` (average 110000, count 2) before group `B`
(average 80000, count 1). -/
theorem salaryAnalysis_partitions_and_sorts :
    (∀ (args : Args) (employees : List Employee),
      ((getSalaryAnalysis args employees).map GroupStat.count).sum =
        employees.length ∧
      List.Sorted byAvgSalaryDesc (getSalaryAnalysis args employees) ∧
      ∀ g ∈ getSalaryAnalysis args employees,
        g.averageSalary = jsRoundDiv g.totalPayroll g.count) ∧
    getSalaryAnalysis { noArgs with groupBy := some "department" }
        specScenarioEmployees =
      [⟨"A", 2, 110000, some 100000, some 120000, 220000⟩,
       ⟨"B", 1, 80000, some 80000, some 80000, 80000⟩] := by
  constructor
  · intro args employees
    refine ⟨?_, List.sorted_insertionSort byAvgSalaryDesc _, ?_⟩
    · have hperm : List.Perm (getSalaryAnalysis args employees)
          ((groupEmployees (salaryGroupBy args) employees).map groupStat) :=
        List.perm_insertionSort _ _
      rw [(hperm.map GroupStat.count).sum_eq, List.map_map]
      have hcomp : GroupStat.count ∘ groupStat =
          (fun p : String × List Employee => p.2.length) := by
        funext p
        rfl
      rw [hcomp, sum_groupEmployees]
    · intro g hg
      have hg2 : g ∈ (groupEmployees (salaryGroupBy args) employees).map groupStat :=
        (List.perm_insertionSort _ _).subset hg
      obtain ⟨p, _, rfl⟩ := List.mem_map.mp hg2
      simp [groupStat, List.length_map]
  · decide

/-- In both servers' databases an incident has positive `mttr` exactly when
it carries a resolution timestamp; the coincidence is a data invariant, not
a law of the record type — `instantIncident` (resolved, `mttr = 0`) would
break it. -/
theorem mttrEligible_is_data_invariant :
    (∀ i ∈ hrmIncidents, mttrEligible i = i.resolvedAt.isSome) ∧
    (∀ i ∈ engIncidents, mttrEligible i = i.resolvedAt.isSome) ∧
    mttrEligible instantIncident = false ∧
    instantIncident.resolvedAt.isSome = true := by
  decide

/-- Claim C8: on every incident set `incident_analysis` is passed (a
filtered subset of either server's incident collection), the MTTR average is
taken over exactly the incidents that carry a resolution timestamp — an
unresolved incident is excluded from the average but still counted in the
headline incident count and in the severity breakdown, whose bucket counts
sum to the full filtered count. -/
theorem incidentAnalysis_excludes_unresolved_from_mttr :
    ∀ args : Args,
      ((filterIncidents args hrmIncidents).filter mttrEligible =
        (filterIncidents args hrmIncidents).filter
          (fun i => i.resolvedAt.isSome) ∧
       (getIncidentAnalysis args hrmIncidents).avgMttr =
        mttrAverageOf ((filterIncidents args hrmIncidents).filter
          (fun i => i.resolvedAt.isSome)) ∧
       (getIncidentAnalysis args hrmIncidents).count =
        (filterIncidents args hrmIncidents).length ∧
       (((getIncidentAnalysis args hrmIncidents).severityBreakdown).map
          Prod.snd).sum = (filterIncidents args hrmIncidents).length) ∧
      ((filterIncidents args engIncidents).filter mttrEligible =
        (filterIncidents args engIncidents).filter
          (fun i => i.resolvedAt.isSome) ∧
       (getIncidentAnalysis args engIncidents).avgMttr =
        mttrAverageOf ((filterIncidents args engIncidents).filter
          (fun i => i.resolvedAt.isSome)) ∧
       (getIncidentAnalysis args engIncidents).count =
        (filterIncidents args engIncidents).length ∧
       (((getIncidentAnalysis args engIncidents).severityBreakdown).map
          Prod.snd).sum = (filterIncidents args engIncidents).length) :=
  fun args =>
    ⟨incidentAnalysis_resolved args hrmIncidents (by decide),
     incidentAnalysis_resolved args engIncidents (by decide)⟩

/-- Claim C10: `deployment_dashboard` computes its headline count, success
rate, average duration and status breakdown over the whole filtered set,
while the detail list it renders is `slice(0, 10)` — so once more than ten
deployments match, the detail list is strictly shorter than the reported
count. -/
theorem deploymentDashboard_slices_detail :
    ∀ (args : Args) (deployments : List Deployment),
      (getDeploymentDashboard args deployments).count =
        (filterDeployments args deployments).length ∧
      (getDeploymentDashboard args deployments).recent =
        (filterDeployments args deployments).take 10 ∧
      (getDeploymentDashboard args deployments).statusBreakdown =
        countBy Deployment.status (filterDeployments args deployments) ∧
      (getDeploymentDashboard args deployments).successRate =
        (if (filterDeployments args deployments).length = 0 then none
         else some ((((filterDeployments args deployments).filter
            (fun d => d.status == "success")).length : ℚ) /
            (filterDeployments args deployments).length * 100)) ∧
      (getDeploymentDashboard args deployments).avgDuration =
        (if (filterDeployments args deployments).length = 0 then none
         else some (jsRoundDiv ((filterDeployments args deployments).map
            Deployment.duration).sum (filterDeployments args deployments).length)) ∧
      (10 < (filterDeployments args deployments).length →
        (getDeploymentDashboard args deployments).recent.length <
          (getDeploymentDashboard args deployments).count) := by
  intro args deployments
  refine ⟨rfl, rfl, rfl, rfl, rfl, ?_⟩
  intro h
  have hlt : ((filterDeployments args deployments).take 10).length <
      (filterDeployments args deployments).length := by
    rw [List.length_take]
    omega
  exact hlt

/-- Claim C10 at eleven matching deployments: the detail list (ten entries)
is strictly shorter than the reported count (eleven). -/
theorem deploymentDashboard_slices_detail_witness :
    10 < (filterDeployments noArgs elevenDeployments).length ∧
    (getDeploymentDashboard noArgs elevenDeployments).recent.length <
      (getDeploymentDashboard noArgs elevenDeployments).count :=
  ⟨by decide,
   (deploymentDashboard_slices_detail noArgs elevenDeployments).2.2.2.2.2
     (by decide)⟩

/-- Claim C1 fails on the code: over a filter result with zero records the
handlers do not throw (they are total), but the division-based metrics are
`NaN` (`0 / 0`, modelled `none`) rather than a defined sentinel —
`deployment_dashboard` renders `Success Rate: NaN%` and
`Average Duration: NaN minutes`, `performance_dashboard` renders
`Average Rating: NaN/5`, `code_review_metrics` renders
`Average Review Time: NaN hours`. -/
theorem emptyAggregate_yields_nan :
    filterDeployments { noArgs with repository := some "no-such-repo" }
        hrmDeployments = [] ∧
    (getDeploymentDashboard { noArgs with repository := some "no-such-repo" }
        hrmDeployments).successRate = none ∧
    (getDeploymentDashboard { noArgs with repository := some "no-such-repo" }
        hrmDeployments).avgDuration = none ∧
    (getPerformanceDashboard { noArgs with period := some "2030-Q1" }
        hrmPerformanceReviews).reviews = [] ∧
    (getPerformanceDashboard { noArgs with period := some "2030-Q1" }
        hrmPerformanceReviews).avgRating = none ∧
    (getCodeReviewMetrics { noArgs with repository := some "no-such-repo" }
        hrmCodeReviews).reviews = [] ∧
    (getCodeReviewMetrics { noArgs with repository := some "no-such-repo" }
        hrmCodeReviews).avgReviewTime = none :=
  ⟨by decide, rfl, rfl, by decide, rfl, by decide, rfl⟩
